import Mathlib

/-!
Shallow embedding of the session-authority subsystem of the `just-for-us`
gym-management application: the `lib/crypto.ts` password hash (SHA-256, hex),
the `lib/db.ts` tables `users` and `sessions`, and the four auth route
handlers (POST login, POST logout, GET /api/auth/me, PUT change-password)
plus DELETE assistant, each translated as a pure function from the database
state and request data to an HTTP response and the new database state.
-/

namespace JustForUs

/-! ### SHA-256 (lib/crypto.ts uses createHash('sha256').digest('hex')) -/

/-- Truncate a natural number to 32 bits. -/
def w32 (n : Nat) : Nat := n % 4294967296

/-- Rotate a 32-bit word right by n positions. -/
def rotr (x n : Nat) : Nat := w32 ((x >>> n) ||| (x <<< (32 - n)))

/-- FIPS 180-4 sigma-0 (message schedule). -/
def smallSigma0 (x : Nat) : Nat := (rotr x 7) ^^^ (rotr x 18) ^^^ (x >>> 3)

/-- FIPS 180-4 sigma-1 (message schedule). -/
def smallSigma1 (x : Nat) : Nat := (rotr x 17) ^^^ (rotr x 19) ^^^ (x >>> 10)

/-- FIPS 180-4 Sigma-0 (compression). -/
def bigSigma0 (x : Nat) : Nat := (rotr x 2) ^^^ (rotr x 13) ^^^ (rotr x 22)

/-- FIPS 180-4 Sigma-1 (compression). -/
def bigSigma1 (x : Nat) : Nat := (rotr x 6) ^^^ (rotr x 11) ^^^ (rotr x 25)

/-- FIPS 180-4 Ch function; complement is XOR with the 32-bit mask. -/
def sha256Ch (x y z : Nat) : Nat := (x &&& y) ^^^ ((x ^^^ 4294967295) &&& z)

/-- FIPS 180-4 Maj function. -/
def sha256Maj (x y z : Nat) : Nat := (x &&& y) ^^^ (x &&& z) ^^^ (y &&& z)

/-- Round constants of the SHA-256 compression function (FIPS 180-4 fourth
paragraph of section 4.2.2), written in decimal. -/
def sha256K : List Nat :=
  [1116352408, 1899447441, 3049323471, 3921009573, 961987163,
   1508970993, 2453635748, 2870763221, 3624381080, 310598401,
   607225278, 1426881987, 1925078388, 2162078206, 2614888103,
   3248222580, 3835390401, 4022224774, 264347078, 604807628,
   770255983, 1249150122, 1555081692, 1996064986, 2554220882,
   2821834349, 2952996808, 3210313671, 3336571891, 3584528711,
   113926993, 338241895, 666307205, 773529912, 1294757372,
   1396182291, 1695183700, 1986661051, 2177026350, 2456956037,
   2730485921, 2820302411, 3259730800, 3345764771, 3516065817,
   3600352804, 4094571909, 275423344, 430227734, 506948616,
   659060556, 883997877, 958139571, 1322822218, 1537002063,
   1747873779, 1955562222, 2024104815, 2227730452, 2361852424,
   2428436474, 2756734187, 3204031479, 3329325298]

/-- Starting hash state of SHA-256 (FIPS 180-4 section 5.3.3), in decimal. -/
def sha256H0 : List Nat :=
  [1779033703, 3144134277, 1013904242, 2773480762, 1359893119,
   2600822924, 528734635, 1541459225]

/-- Big-endian byte decomposition of a number into k bytes. -/
def bytesBE : Nat → Nat → List Nat
  | 0, _ => []
  | k+1, n => bytesBE k (n / 256) ++ [n % 256]

/-- SHA-256 padding: append 0x80, zero bytes, then the 64-bit big-endian bit length. -/
def sha256pad (msg : List Nat) : List Nat :=
  let L := msg.length
  let padZeros := (119 - (L % 64)) % 64
  msg ++ [0x80] ++ List.replicate padZeros 0 ++ bytesBE 8 (L * 8)

/-- Group bytes into big-endian 32-bit words. -/
def toWords : List Nat → List Nat
  | b0 :: b1 :: b2 :: b3 :: rest => (((b0 * 256 + b1) * 256 + b2) * 256 + b3) :: toWords rest
  | _ => []

/-- Group a word list into 16-word blocks. -/
def toBlocks : List Nat → List (List Nat)
  | w0 :: w1 :: w2 :: w3 :: w4 :: w5 :: w6 :: w7 :: w8 :: w9 :: w10 :: w11 :: w12 :: w13 :: w14 :: w15 :: rest =>
      [w0, w1, w2, w3, w4, w5, w6, w7, w8, w9, w10, w11, w12, w13, w14, w15] :: toBlocks rest
  | _ => []

/-- Expand a 16-word block into the 64-word message schedule. -/
def msgSchedule (block : List Nat) : List Nat :=
  (List.range 48).foldl
    (fun ws _ =>
      ws ++ [w32 (smallSigma1 (ws.getD (ws.length - 2) 0) + ws.getD (ws.length - 7) 0 +
                  smallSigma0 (ws.getD (ws.length - 15) 0) + ws.getD (ws.length - 16) 0)])
    block

/-- One SHA-256 compression round on the 8-word working state. -/
def compressRound (s : List Nat) (kw : Nat × Nat) : List Nat :=
  match s with
  | [a, b, c, d, e, f, g, h] =>
    let t1 := w32 (h + bigSigma1 e + sha256Ch e f g + kw.1 + kw.2)
    let t2 := w32 (bigSigma0 a + sha256Maj a b c)
    [w32 (t1 + t2), a, b, c, w32 (d + t1), e, f, g]
  | other => other

/-- Process one 16-word block, updating the 8-word hash state. -/
def processBlock (H : List Nat) (block : List Nat) : List Nat :=
  let s := (sha256K.zip (msgSchedule block)).foldl compressRound H
  (H.zip s).map (fun p => w32 (p.1 + p.2))

/-- SHA-256 digest (as 32 bytes) of a byte list. -/
def sha256bytes (msg : List Nat) : List Nat :=
  let blocks := toBlocks (toWords (sha256pad msg))
  ((blocks.foldl processBlock sha256H0).map (bytesBE 4)).flatten

/-- UTF-8 encoding of one character (hash.update encodes the string as UTF-8). -/
def utf8EncodeChar (c : Char) : List Nat :=
  let n := c.toNat
  if n < 128 then [n]
  else if n < 2048 then [192 + n / 64, 128 + n % 64]
  else if n < 65536 then [224 + n / 4096, 128 + (n / 64) % 64, 128 + n % 64]
  else [240 + n / 262144, 128 + (n / 4096) % 64, 128 + (n / 64) % 64, 128 + n % 64]

/-- UTF-8 encoding of a string as bytes. -/
def utf8Encode (s : String) : List Nat := (s.data.map utf8EncodeChar).flatten

/-- Lowercase hexadecimal digit. -/
def hexDigit (n : Nat) : Char := if n < 10 then Char.ofNat (48 + n) else Char.ofNat (87 + n)

/-- Two lowercase hex digits of a byte. -/
def byteToHex (b : Nat) : List Char := [hexDigit (b / 16), hexDigit (b % 16)]

/-- Model of lib/crypto.ts hashPassword: hex-encoded SHA-256 of the UTF-8 password. -/
def hashPassword (password : String) : String :=
  String.mk (((sha256bytes (utf8Encode password)).map byteToHex).flatten)

/-! ### Data model (lib/db.ts schema, with the role/admin_id columns the
auth and assistant routes read and write) -/

/-- Row of the `users` table: id, email, password (stored hash), role,
admin_id (back-reference for assistants, NULL for admins). -/
structure User where
  id : Nat
  email : String
  password : String
  role : String
  admin_id : Option Nat
deriving DecidableEq, Repr

/-- Row of the `sessions` table: id is the opaque token (primary key),
userId references users.id, expiresAt is a millisecond timestamp. -/
structure Session where
  id : String
  userId : Nat
  expiresAt : Nat
deriving DecidableEq, Repr

/-- The database state: the two tables the session authority touches. -/
structure Db where
  users : List User
  sessions : List Session
deriving DecidableEq, Repr

/-- A user row with the password field stripped, as produced by
`const &#123; password: _, ...userWithoutPassword &#125; = user` in the routes. -/
structure UserPublic where
  id : Nat
  email : String
  role : String
  admin_id : Option Nat
deriving DecidableEq, Repr

/-- Drop the password field of a user row. -/
def stripPassword (u : User) : UserPublic :=
  UserPublic.mk u.id u.email u.role u.admin_id

/-- Response body: a plain text message, a JSON-serialised password-free user
row, or an empty body. -/
inductive Body where
  | text : String → Body
  | jsonUser : UserPublic → Body
  | empty : Body
deriving DecidableEq, Repr

/-- A Set-Cookie directive as built by response.cookies.set. -/
structure SetCookie where
  name : String
  value : String
  httpOnly : Bool
  secure : Bool
  sameSiteStrict : Bool
  path : String
  expires : Nat
deriving DecidableEq, Repr

/-- An HTTP response: status, body, and an optional Set-Cookie directive. -/
structure Response where
  status : Nat
  body : Body
  setCookie : Option SetCookie
deriving DecidableEq, Repr

/-- The 401 'Invalid credentials' response of login and change-password. -/
def invalidCredentialsResponse : Response :=
  Response.mk 401 (Body.text "Invalid credentials") none

/-- The 401 'Unauthorized' response of logout and GET /api/auth/me. -/
def unauthorizedResponse : Response :=
  Response.mk 401 (Body.text "Unauthorized") none

/-- The 500 response produced by the catch blocks. -/
def serverErrorResponse : Response :=
  Response.mk 500 (Body.text "Internal Server Error") none

/-- Milliseconds in 24 hours: the session lifetime. -/
def dayMs : Nat := 86400000

/-! ### Cookie-header parsing, as in the logout and /api/auth/me handlers:
cookie.split(';').find(c => c.trim().startsWith('session_token='))?.split('=')[1] -/

/-- JavaScript-style whitespace test for trim (the characters relevant to
cookie headers). -/
def isWsChar (c : Char) : Bool := c == ' ' || c == '\t' || c == '\n' || c == '\r'

/-- JavaScript String.prototype.trim on a character list. -/
def jsTrim (l : List Char) : List Char :=
  ((l.dropWhile isWsChar).reverse.dropWhile isWsChar).reverse

/-- JavaScript String.prototype.split with a one-character separator. -/
def splitOnChar (sep : Char) : List Char → List (List Char)
  | [] => [[]]
  | x :: xs =>
    match splitOnChar sep xs with
    | [] => [[]]
    | g :: gs => if x == sep then [] :: g :: gs else (x :: g) :: gs

/-- The cookie-pair name the handlers look for, including the '=' sign. -/
def sessionTokenKey : List Char := "session_token=".data

/-- The token-extraction expression of the logout and /api/auth/me handlers
applied to an optional Cookie header. -/
def extractSessionToken (cookie : Option String) : Option String :=
  match cookie with
  | none => none
  | some c =>
    match (splitOnChar ';' c.data).find? (fun part => List.isPrefixOf sessionTokenKey (jsTrim part)) with
    | none => none
    | some part => ((splitOnChar '=' part).get? 1).map String.mk

/-- The extracted token as the handlers test it: `if (!sessionToken)` treats
both an absent and an empty token as missing. -/
def getCookieToken (cookie : Option String) : Option String :=
  match extractSessionToken cookie with
  | none => none
  | some t => if t == "" then none else some t

/-! ### Single-row queries (sqlite `db.get`) -/

/-- SELECT * FROM users WHERE email = ? (first matching row). -/
def findUserByEmail (db : Db) (email : String) : Option User :=
  db.users.find? (fun u => u.email == email)

/-- SELECT * FROM users WHERE id = ? (first matching row). -/
def findUserById (db : Db) (uid : Nat) : Option User :=
  db.users.find? (fun u => u.id == uid)

/-- SELECT * FROM sessions WHERE id = ? (first matching row). -/
def findSession (db : Db) (token : String) : Option Session :=
  db.sessions.find? (fun s => s.id == token)

/-! ### Route handlers -/

/-- POST /api/auth/login. Inputs: current time in ms, the NODE_ENV production
flag, the request body's email and password, and the token produced by
randomBytes(32).toString('hex') (passed as a parameter since the model is
pure). A duplicate token would violate the sessions primary key, and the
catch block would turn that insert failure into a 500. -/
def login (db : Db) (now : Nat) (isProd : Bool) (email password token : String) : Response × Db :=
  match findUserByEmail db email with
  | none => (invalidCredentialsResponse, db)
  | some user =>
    if user.password == hashPassword password then
      if db.sessions.any (fun s => s.id == token) then
        (serverErrorResponse, db)
      else
        (Response.mk 200 (Body.jsonUser (stripPassword user))
           (some (SetCookie.mk "session_token" token true isProd true "/" (now + dayMs))),
         Db.mk db.users (db.sessions ++ [Session.mk token user.id (now + dayMs)]))
    else (invalidCredentialsResponse, db)

/-- POST /api/auth/logout: deletes the session row matching the cookie's
token and clears the cookie; 401 when the cookie carries no token. -/
def logout (db : Db) (isProd : Bool) (cookie : Option String) : Response × Db :=
  match getCookieToken cookie with
  | none => (unauthorizedResponse, db)
  | some token =>
    (Response.mk 200 (Body.text "Logged out")
       (some (SetCookie.mk "session_token" "" true isProd true "/" 0)),
     Db.mk db.users (db.sessions.filter (fun s => !(s.id == token))))

/-- GET /api/auth/me: resolves the cookie's token to a password-free user
row; 401 when the token is missing, unknown, past expiry, or its user row
is gone. A pure read: the returned state is the input state. -/
def getMe (db : Db) (now : Nat) (cookie : Option String) : Response × Db :=
  match getCookieToken cookie with
  | none => (unauthorizedResponse, db)
  | some token =>
    match findSession db token with
    | none => (unauthorizedResponse, db)
    | some session =>
      if session.expiresAt < now then (unauthorizedResponse, db)
      else
        match findUserById db session.userId with
        | none => (unauthorizedResponse, db)
        | some user => (Response.mk 200 (Body.jsonUser (stripPassword user)) none, db)

/-- PUT /api/auth/change-password: re-checks the old password's hash against
the row found by the request's userId, then UPDATE users SET password = ?
WHERE id = ?. -/
def changePassword (db : Db) (userId : Nat) (oldPassword newPassword : String) : Response × Db :=
  match findUserById db userId with
  | none => (invalidCredentialsResponse, db)
  | some user =>
    if user.password == hashPassword oldPassword then
      (Response.mk 204 Body.empty none,
       Db.mk (db.users.map (fun u =>
                if u.id == userId then User.mk u.id u.email (hashPassword newPassword) u.role u.admin_id
                else u))
             db.sessions)
    else (invalidCredentialsResponse, db)

/-- DELETE /api/users/assistants/[id]: DELETE FROM users WHERE id = ? AND
role = 'assistant'. -/
def deleteAssistant (db : Db) (userId : Nat) : Response × Db :=
  (Response.mk 204 Body.empty none,
   Db.mk (db.users.filter (fun u => !(u.id == userId && u.role == "assistant"))) db.sessions)

/-- The `verifyCredentials`-equivalent check of the change-password handler,
factored as a predicate on the stored row found by id: does the supplied
plaintext hash to the stored hash? -/
def passwordMatchesById (db : Db) (uid : Nat) (pw : String) : Bool :=
  match findUserById db uid with
  | none => false
  | some u => u.password == hashPassword pw

/-! ### Concrete fixtures used by witnesses and counterexamples -/

/-- A seeded admin credential whose password is "secret". -/
def demoUser : User := User.mk 1 "a@x.com" (hashPassword "secret") "admin" none

/-- A database holding only the seeded admin. -/
def demoDb : Db := Db.mk [demoUser] []

/-- A database whose one session expires exactly at time 1000. -/
def borderDb : Db :=
  Db.mk [User.mk 1 "a@x.com" "storedhash" "admin" none] [Session.mk "tok" 1 1000]

/-- A database whose one session expired at time 5. -/
def expiredDb : Db :=
  Db.mk [User.mk 1 "a@x.com" "storedhash" "admin" none] [Session.mk "tok" 1 5]

/-- A database for the change-password witness: the stored hash is of "old". -/
def changePwDb : Db :=
  Db.mk [User.mk 1 "a@x.com" (hashPassword "old") "admin" none] []

/-- A live session for the logout witness. -/
def logoutDb : Db := Db.mk [] [Session.mk "tok" 1 999999]

/-- A seeded admin plus a live session, for the body-shape witness. -/
def bothDb : Db := Db.mk [demoUser] [Session.mk "tok" 1 100]

/-- An assistant with a live session, before the admin deletes the account. -/
def danglingDb : Db :=
  Db.mk [User.mk 7 "b@x.com" "storedhash" "assistant" (some 1)] [Session.mk "tok" 7 1000]

/-! ### Helper lemmas -/

/-- Searching a list from which every match was filtered out finds nothing. -/
theorem find?_filter_not {α : Type} (l : List α) (p : α → Bool) :
    (l.filter (fun x => !(p x))).find? p = none := by
  rw [List.find?_eq_none]
  intro x hx
  have h := (List.mem_filter.mp hx).2
  simp only [Bool.not_eq_true'] at h
  simp [h]

/-- Filtering twice with the same predicate filters once. -/
theorem filter_idem {α : Type} (l : List α) (p : α → Bool) :
    (l.filter p).filter p = l.filter p := by
  rw [List.filter_filter]
  congr 1
  funext a
  exact Bool.and_self (p a)

/-- A list with no element satisfying p (as reported by any) has no find? hit. -/
theorem find?_eq_none_of_any_false {α : Type} {l : List α} {p : α → Bool}
    (h : l.any p = false) : l.find? p = none := by
  rw [List.find?_eq_none]
  intro x hx
  have := List.any_eq_false.mp h x hx
  simp [this]

/-- Mapping an id-preserving transformation over the users table commutes
with lookup by id. -/
theorem find?_users_map_id (l : List User) (g : User → User)
    (hid : ∀ x, (g x).id = x.id) (i : Nat) :
    (l.map g).find? (fun x => x.id == i) = (l.find? (fun x => x.id == i)).map g := by
  rw [List.find?_map]
  have h : ((fun x : User => x.id == i) ∘ g) = (fun x : User => x.id == i) := by
    funext x
    simp [Function.comp, hid]
  rw [h]

/-- A users-table rewrite that preserves each row's id and its password-free
projection does not change the response of GET /api/auth/me. -/
theorem getMe_fst_users_map (db : Db) (now : Nat) (cookie : Option String)
    (g : User → User)
    (hid : ∀ x, (g x).id = x.id)
    (hstrip : ∀ x, stripPassword (g x) = stripPassword x) :
    (getMe (Db.mk (db.users.map g) db.sessions) now cookie).1 = (getMe db now cookie).1 := by
  unfold getMe
  cases hct : getCookieToken cookie with
  | none => simp only [hct]
  | some t =>
    simp only [hct]
    have hfs : findSession (Db.mk (db.users.map g) db.sessions) t = findSession db t := rfl
    rw [hfs]
    cases hfsd : findSession db t with
    | none => simp only [hfsd]
    | some session =>
      simp only [hfsd]
      by_cases hexp : session.expiresAt < now
      · simp only [if_pos hexp]
      · simp only [if_neg hexp]
        have hfu : findUserById (Db.mk (db.users.map g) db.sessions) session.userId
            = (findUserById db session.userId).map g := by
          show (db.users.map g).find? (fun x => x.id == session.userId)
              = (db.users.find? (fun x => x.id == session.userId)).map g
          exact find?_users_map_id db.users g hid session.userId
        rw [hfu]
        cases hfud : findUserById db session.userId with
        | none => simp only [hfud, Option.map_none']
        | some u' =>
          simp only [hfud, Option.map_some']
          rw [hstrip u']

/-! ### Claim theorems -/

/-- Claim C10: a logout request whose cookie carries no session_token is
answered 401 'Unauthorized', no session row is deleted (the state is
returned unchanged), and no cookie-clearing directive is set (the 401
response carries no Set-Cookie). -/
theorem C10_logout_missing_token_rejected (db : Db) (isProd : Bool) (cookie : Option String)
    (h : getCookieToken cookie = none) :
    logout db isProd cookie = (unauthorizedResponse, db) := by
  unfold logout
  rw [h]

/-- Witness for C10 at a concrete cookie header with no session_token pair,
against a store holding a session row. -/
theorem C10_witness :
    logout expiredDb false (some "theme=dark") = (unauthorizedResponse, expiredDb) :=
  C10_logout_missing_token_rejected expiredDb false (some "theme=dark") (by decide)

/-- Claim C8: resolving a token whose session row is past expiry answers
401 'Unauthorized' and performs no write: the returned state is exactly the
input state, every session row (the expired one included) still present. -/
theorem C8_expired_resolution_read_only (db : Db) (now : Nat) (cookie : Option String)
    (token : String) (s : Session)
    (hcookie : getCookieToken cookie = some token)
    (hs : findSession db token = some s)
    (hexp : s.expiresAt < now) :
    getMe db now cookie = (unauthorizedResponse, db) := by
  unfold getMe
  simp only [hcookie, hs, if_pos hexp]

/-- Witness for C8: the session expired at 5, resolved at time 10. -/
theorem C8_witness :
    getMe expiredDb 10 (some "session_token=tok") = (unauthorizedResponse, expiredDb) :=
  C8_expired_resolution_read_only expiredDb 10 (some "session_token=tok") "tok"
    (Session.mk "tok" 1 5) (by decide) (by decide) (by decide)

/-- Claim C9: a present, unexpired session row whose userId matches no user
row resolves to 401 'Unauthorized' rather than any partial identity. -/
theorem C9_dangling_session_unauthorized (db : Db) (now : Nat) (cookie : Option String)
    (token : String) (s : Session)
    (hcookie : getCookieToken cookie = some token)
    (hs : findSession db token = some s)
    (hexp : ¬ s.expiresAt < now)
    (huser : findUserById db s.userId = none) :
    (getMe db now cookie).1 = unauthorizedResponse := by
  unfold getMe
  simp only [hcookie, hs, if_neg hexp, huser]

/-- Witness for C9: the assistant's account is deleted while its session is
live; resolving that session afterwards is 401. -/
theorem C9_witness :
    (getMe (deleteAssistant danglingDb 7).2 10 (some "session_token=tok")).1 = unauthorizedResponse :=
  C9_dangling_session_unauthorized (deleteAssistant danglingDb 7).2 10
    (some "session_token=tok") "tok" (Session.mk "tok" 7 1000)
    (by decide) (by decide) (by decide) (by decide)

/-- Claim C3: a login whose email matches no stored row, and a login whose
email matches but whose password hashes differently from the stored hash,
both produce the identical result: 401 'Invalid credentials', state
unchanged. -/
theorem C3_login_failures_indistinguishable (db : Db) (now : Nat) (isProd : Bool)
    (email pw token : String)
    (h : findUserByEmail db email = none ∨
         ∃ u, findUserByEmail db email = some u ∧ u.password ≠ hashPassword pw) :
    login db now isProd email pw token = (invalidCredentialsResponse, db) := by
  unfold login
  rcases h with h | ⟨u, hu, hne⟩
  · rw [h]
  · have hb : (u.password == hashPassword pw) = false := by
      simp [hne]
    simp [hu, hb]

/-- Witness for C3 at the wrong-password case against the seeded admin: the
stored hash is of "secret", the supplied password is "wrong". -/
theorem C3_witness :
    login demoDb 0 false "a@x.com" "wrong" "tok" = (invalidCredentialsResponse, demoDb) :=
  C3_login_failures_indistinguishable demoDb 0 false "a@x.com" "wrong" "tok"
    (Or.inr ⟨demoUser, rfl, by decide⟩)

/-- Claim C2 (amended): resolving a presented token fails with the one
identical response — 401 'Unauthorized', no write, no cookie — when the
token is not found in the session store, and also when it is found but its
expiry is strictly before the current time; in particular a token seen
after its expiry has passed fails identically to a token never issued.
(The code's check is `session.expiresAt < Date.now()`, so a token seen at
exactly its expiry instant still resolves; see the counterexample.) -/
theorem C2_unknown_or_strictly_expired_identical (db : Db) (now : Nat)
    (cookie : Option String) (token : String)
    (hcookie : getCookieToken cookie = some token)
    (h : findSession db token = none ∨
         ∃ s, findSession db token = some s ∧ s.expiresAt < now) :
    getMe db now cookie = (unauthorizedResponse, db) := by
  unfold getMe
  rcases h with h | ⟨s, hs, hlt⟩
  · simp only [hcookie, h]
  · simp only [hcookie, hs, if_pos hlt]

/-- Witness for C2: an unknown token and an expired one get the same
response. -/
theorem C2_witness :
    getMe expiredDb 10 (some "session_token=ghost") = (unauthorizedResponse, expiredDb) ∧
    getMe expiredDb 10 (some "session_token=tok") = (unauthorizedResponse, expiredDb) :=
  And.intro
    (C2_unknown_or_strictly_expired_identical expiredDb 10 (some "session_token=ghost") "ghost"
      (by decide) (Or.inl (by decide)))
    (C2_unknown_or_strictly_expired_identical expiredDb 10 (some "session_token=tok") "tok"
      (by decide) (Or.inr ⟨Session.mk "tok" 1 5, by decide, by decide⟩))

/-- Counterexample to C2 as stated: the claim says a session whose stored
expiry is AT or before the current time fails. In borderDb the session
"tok" has expiresAt = 1000; resolving it at current time 1000 (expiry at
the current time) succeeds with status 200, because the handler rejects
only `expiresAt < Date.now()`. -/
theorem C2_counterexample :
    findSession borderDb "tok" = some (Session.mk "tok" 1 1000) ∧
    (Session.mk "tok" 1 1000).expiresAt ≤ 1000 ∧
    (getMe borderDb 1000 (some "session_token=tok")).1.status = 200 ∧
    (getMe borderDb 1000 (some "session_token=tok")).1 ≠ unauthorizedResponse := by
  refine ⟨by decide, by decide, by decide, by decide⟩

/-- Claim C5: revoking a presented token succeeds with 200; resolving the
token afterwards fails with 401 'Unauthorized'; and revoking it again is
not an error — the second logout returns the very same 200 response and
leaves the session store exactly as the first one left it (the delete of
an absent row is a no-op), so revocation is idempotent. -/
theorem C5_revoke_then_resolve_and_idempotence (db : Db) (now : Nat) (isProd : Bool)
    (cookie : Option String) (token : String)
    (hcookie : getCookieToken cookie = some token) :
    (logout db isProd cookie).1.status = 200 ∧
    (getMe (logout db isProd cookie).2 now cookie).1 = unauthorizedResponse ∧
    logout (logout db isProd cookie).2 isProd cookie =
      ((logout db isProd cookie).1, (logout db isProd cookie).2) := by
  have hlog : logout db isProd cookie =
      (Response.mk 200 (Body.text "Logged out")
         (some (SetCookie.mk "session_token" "" true isProd true "/" 0)),
       Db.mk db.users (db.sessions.filter (fun s => !(s.id == token)))) := by
    unfold logout
    rw [hcookie]
  refine ⟨?_, ?_, ?_⟩
  · rw [hlog]
  · rw [hlog]
    have hfind : findSession (Db.mk db.users (db.sessions.filter (fun s => !(s.id == token)))) token
        = none :=
      find?_filter_not db.sessions (fun s => s.id == token)
    unfold getMe
    simp only [hcookie, hfind]
  · rw [hlog]
    unfold logout
    simp only [hcookie]
    rw [filter_idem]

/-- Witness for C5 against a store holding the live session "tok". -/
theorem C5_witness :
    (logout logoutDb false (some "session_token=tok")).1.status = 200 ∧
    (getMe (logout logoutDb false (some "session_token=tok")).2 5 (some "session_token=tok")).1
      = unauthorizedResponse ∧
    logout (logout logoutDb false (some "session_token=tok")).2 false (some "session_token=tok") =
      ((logout logoutDb false (some "session_token=tok")).1,
       (logout logoutDb false (some "session_token=tok")).2) :=
  C5_revoke_then_resolve_and_idempotence logoutDb 5 false (some "session_token=tok") "tok"
    (by decide)

/-- Claim C6: the change-password handler never touches the session store:
for every request, successful or failed, the sessions table is returned
unchanged, and the response of GET /api/auth/me (hence the resolution of
any previously issued session, until its expiry passes) is identical on
the old and the new state. -/
theorem C6_change_password_frames_sessions (db : Db) (uid : Nat) (oldPw newPw : String)
    (now : Nat) (cookie : Option String) :
    (changePassword db uid oldPw newPw).2.sessions = db.sessions ∧
    (getMe (changePassword db uid oldPw newPw).2 now cookie).1 = (getMe db now cookie).1 := by
  unfold changePassword
  cases hfind : findUserById db uid with
  | none => simp [hfind]
  | some user =>
    by_cases hpw : (user.password == hashPassword oldPw) = true
    · simp only [hfind, if_pos hpw]
      constructor
      · trivial
      · exact getMe_fst_users_map db now cookie
          (fun u => if u.id == uid then User.mk u.id u.email (hashPassword newPw) u.role u.admin_id
                    else u)
          (fun x => by by_cases hx : (x.id == uid) = true <;> simp [hx])
          (fun x => by by_cases hx : (x.id == uid) = true <;> simp [hx, stripPassword])
    · have hne : user.password ≠ hashPassword oldPw := by simpa using hpw
      simp [hfind, hne]

/-- Claim C1: when login finds the credential by email and the supplied
password hashes to the stored hash, the handler answers 200, persists a
session row whose expiry is exactly issue time + 24 hours, and the issued
token — presented back through the cookie — resolves via GET /api/auth/me
at any time strictly before issue time + 24 hours to that same
credential's (password-free) record. The freshness of the random token and
the uniqueness of the credential id restate the sessions/users primary-key
constraints. -/
theorem C1_issued_session_resolves (db : Db) (now tr : Nat) (isProd : Bool)
    (email pw token : String) (cookie : Option String) (u : User)
    (hu : findUserByEmail db email = some u)
    (hpw : u.password = hashPassword pw)
    (hfresh : db.sessions.any (fun s => s.id == token) = false)
    (hid : findUserById db u.id = some u)
    (hcookie : getCookieToken cookie = some token)
    (htr : tr < now + dayMs) :
    (login db now isProd email pw token).1.status = 200 ∧
    findSession (login db now isProd email pw token).2 token
      = some (Session.mk token u.id (now + dayMs)) ∧
    (getMe (login db now isProd email pw token).2 tr cookie).1
      = Response.mk 200 (Body.jsonUser (stripPassword u)) none := by
  have hb : (u.password == hashPassword pw) = true := by simp [hpw]
  have hlogin : login db now isProd email pw token =
      (Response.mk 200 (Body.jsonUser (stripPassword u))
         (some (SetCookie.mk "session_token" token true isProd true "/" (now + dayMs))),
       Db.mk db.users (db.sessions ++ [Session.mk token u.id (now + dayMs)])) := by
    unfold login
    have hdup : ¬ ((db.sessions.any fun s => s.id == token) = true) := by
      simp [hfresh]
    simp only [hu, hb, if_true, if_neg hdup]
  have hfs : findSession (Db.mk db.users (db.sessions ++ [Session.mk token u.id (now + dayMs)])) token
      = some (Session.mk token u.id (now + dayMs)) := by
    show (db.sessions ++ [Session.mk token u.id (now + dayMs)]).find? (fun s => s.id == token)
        = some (Session.mk token u.id (now + dayMs))
    rw [List.find?_append, find?_eq_none_of_any_false hfresh]
    simp
  refine ⟨by rw [hlogin], by rw [hlogin]; exact hfs, ?_⟩
  rw [hlogin]
  have hnl : ¬ (Session.mk token u.id (now + dayMs)).expiresAt < tr := by
    show ¬ now + dayMs < tr
    omega
  have hid2 : findUserById (Db.mk db.users (db.sessions ++ [Session.mk token u.id (now + dayMs)]))
      (Session.mk token u.id (now + dayMs)).userId = some u := hid
  unfold getMe
  simp only [hcookie, hfs, if_neg hnl, hid2]

/-- Witness for C1: the seeded admin logs in with "secret" at time 0 and
the issued token "tok" resolves at time 86399999, one millisecond before
expiry. -/
theorem C1_witness :
    (login demoDb 0 false "a@x.com" "secret" "tok").1.status = 200 ∧
    findSession (login demoDb 0 false "a@x.com" "secret" "tok").2 "tok"
      = some (Session.mk "tok" 1 (0 + dayMs)) ∧
    (getMe (login demoDb 0 false "a@x.com" "secret" "tok").2 86399999 (some "session_token=tok")).1
      = Response.mk 200 (Body.jsonUser (stripPassword demoUser)) none :=
  C1_issued_session_resolves demoDb 0 86399999 false "a@x.com" "secret" "tok"
    (some "session_token=tok") demoUser rfl rfl rfl rfl (by decide) (by decide)

/-- Claim C4: change-password with a wrong old password answers 401
'Invalid credentials' and returns the state unchanged (the stored hash in
particular); with the correct old password it answers 204 and replaces the
stored hash by the hash of the new password, after which the handler's own
hash check succeeds for the new password and fails for the old one. The
last part is stated under distinctness of the two hashes, which is what
SHA-256 collision resistance gives for distinct passwords. -/
theorem C4_change_password_replaces_hash (db : Db) (uid : Nat) (oldPw newPw : String) (u : User)
    (hu : findUserById db uid = some u) :
    (u.password ≠ hashPassword oldPw →
      changePassword db uid oldPw newPw = (invalidCredentialsResponse, db)) ∧
    (u.password = hashPassword oldPw →
      (changePassword db uid oldPw newPw).1.status = 204 ∧
      findUserById (changePassword db uid oldPw newPw).2 uid
        = some (User.mk u.id u.email (hashPassword newPw) u.role u.admin_id) ∧
      (hashPassword oldPw ≠ hashPassword newPw →
        passwordMatchesById (changePassword db uid oldPw newPw).2 uid newPw = true ∧
        passwordMatchesById (changePassword db uid oldPw newPw).2 uid oldPw = false)) := by
  have hu' : db.users.find? (fun x => x.id == uid) = some u := hu
  have hid : (u.id == uid) = true := by
    have h := List.find?_some hu'
    simpa using h
  constructor
  · intro hne
    have hcond : ¬ ((u.password == hashPassword oldPw) = true) := by simp [hne]
    unfold changePassword
    simp only [hu, if_neg hcond]
  · intro heq
    have hb : (u.password == hashPassword oldPw) = true := by simp [heq]
    have hchange : changePassword db uid oldPw newPw =
        (Response.mk 204 Body.empty none,
         Db.mk (db.users.map (fun x =>
                  if x.id == uid then User.mk x.id x.email (hashPassword newPw) x.role x.admin_id
                  else x))
               db.sessions) := by
      unfold changePassword
      simp only [hu, hb, if_true]
    have hgid : ∀ x : User,
        ((fun x : User =>
            if x.id == uid then User.mk x.id x.email (hashPassword newPw) x.role x.admin_id
            else x) x).id = x.id := by
      intro x
      by_cases hx : (x.id == uid) = true <;> simp [hx]
    have hfound : findUserById (changePassword db uid oldPw newPw).2 uid
        = some (User.mk u.id u.email (hashPassword newPw) u.role u.admin_id) := by
      rw [hchange]
      show (db.users.map (fun x =>
              if x.id == uid then User.mk x.id x.email (hashPassword newPw) x.role x.admin_id
              else x)).find? (fun x => x.id == uid)
          = some (User.mk u.id u.email (hashPassword newPw) u.role u.admin_id)
      rw [find?_users_map_id db.users _ hgid uid]
      have hu' : db.users.find? (fun x => x.id == uid) = some u := hu
      rw [hu']
      have hidq : u.id = uid := by simpa using hid
      simp [hidq]
    refine ⟨by rw [hchange], hfound, ?_⟩
    intro hne2
    constructor
    · unfold passwordMatchesById
      simp only [hfound]
      simp
    · unfold passwordMatchesById
      simp only [hfound]
      simp [Ne.symm hne2]

/-- Witness for C4: the stored hash is of "old"; changing to "new" answers
204, stores the hash of "new", and the handler's check then accepts "new"
and rejects "old". -/
theorem C4_witness :
    (changePassword changePwDb 1 "old" "new").1.status = 204 ∧
    findUserById (changePassword changePwDb 1 "old" "new").2 1
      = some (User.mk 1 "a@x.com" (hashPassword "new") "admin" none) ∧
    passwordMatchesById (changePassword changePwDb 1 "old" "new").2 1 "new" = true ∧
    passwordMatchesById (changePassword changePwDb 1 "old" "new").2 1 "old" = false := by
  have h := (C4_change_password_replaces_hash changePwDb 1 "old" "new"
    (User.mk 1 "a@x.com" (hashPassword "old") "admin" none) rfl).2 rfl
  have hne : hashPassword "old" ≠ hashPassword "new" := by decide
  exact ⟨h.1, h.2.1, (h.2.2 hne).1, (h.2.2 hne).2⟩

/-- Claim C7: a 200 response of login carries as its body exactly the
password-free projection of the credential row matched by email; a 200
response of GET /api/auth/me carries the password-free projection of the
stored row its session points at; and the projection keeps every field of
the row except password (id, email, role, admin_id), so the stored hash is
never part of a response body. -/
theorem C7_success_bodies_password_free (db : Db) (now : Nat) (isProd : Bool)
    (email pw token : String) (cookie : Option String) :
    ((login db now isProd email pw token).1.status = 200 →
      ∃ u, findUserByEmail db email = some u ∧
        (login db now isProd email pw token).1.body = Body.jsonUser (stripPassword u)) ∧
    ((getMe db now cookie).1.status = 200 →
      ∃ t s u, getCookieToken cookie = some t ∧ findSession db t = some s ∧
        findUserById db s.userId = some u ∧
        (getMe db now cookie).1.body = Body.jsonUser (stripPassword u)) ∧
    (∀ w : User, stripPassword w = UserPublic.mk w.id w.email w.role w.admin_id) := by
  refine ⟨?_, ?_, fun w => rfl⟩
  · intro h200
    unfold login at h200 ⊢
    cases hfe : findUserByEmail db email with
    | none =>
      simp only [hfe] at h200
      simp [invalidCredentialsResponse] at h200
    | some u =>
      by_cases hpw : (u.password == hashPassword pw) = true
      · by_cases hdup : ((db.sessions.any fun s => s.id == token) = true)
        · simp only [hfe, if_pos hpw, if_pos hdup] at h200
          simp [serverErrorResponse] at h200
        · refine ⟨u, rfl, ?_⟩
          simp only [if_pos hpw, if_neg hdup]
      · simp only [hfe, if_neg hpw] at h200
        simp [invalidCredentialsResponse] at h200
  · intro h200
    unfold getMe at h200 ⊢
    cases hct : getCookieToken cookie with
    | none =>
      simp only [hct] at h200
      simp [unauthorizedResponse] at h200
    | some t =>
      simp only [hct] at h200 ⊢
      cases hfs : findSession db t with
      | none =>
        simp only [hfs] at h200
        simp [unauthorizedResponse] at h200
      | some s =>
        simp only [hfs] at h200 ⊢
        by_cases hexp : s.expiresAt < now
        · simp only [if_pos hexp] at h200
          simp [unauthorizedResponse] at h200
        · simp only [if_neg hexp] at h200 ⊢
          cases hfu : findUserById db s.userId with
          | none =>
            simp only [hfu] at h200
            simp [unauthorizedResponse] at h200
          | some u =>
            simp only [hfu]
            exact ⟨t, s, u, rfl, hfs, hfu, rfl⟩

/-- Witness for C7: both a successful login and a successful resolution
against bothDb produce password-free user bodies. -/
theorem C7_witness :
    (∃ u, findUserByEmail bothDb "a@x.com" = some u ∧
      (login bothDb 50 false "a@x.com" "secret" "newtok").1.body
        = Body.jsonUser (stripPassword u)) ∧
    (∃ t s u, getCookieToken (some "session_token=tok") = some t ∧
      findSession bothDb t = some s ∧ findUserById bothDb s.userId = some u ∧
      (getMe bothDb 50 (some "session_token=tok")).1.body = Body.jsonUser (stripPassword u)) := by
  have h := C7_success_bodies_password_free bothDb 50 false "a@x.com" "secret" "newtok"
    (some "session_token=tok")
  exact ⟨h.1 (by decide), h.2.1 (by decide)⟩

end JustForUs
